import Mathlib

/-!
Shallow embedding of the myxine page-content state machine
(src/page/content.rs) and the subscriber fan-out contract it consumes.

The fan-out (sse.BufferedServer, from src/page/sse.rs) is not part of the
provided sources; it is modelled from the specification of the external
contract (spec section 4.3).  Every client sink is represented by the list
of frames it has received, in order; an event frame carries a typed event
record, and a heartbeat frame is the transport keep-alive.
-/

/-- An event record on the streaming subscription protocol: an event type
name together with a payload (the data built by EventBuilder). -/
structure Event where
  eventType : String
  data : String
deriving DecidableEq, Repr

/-- A frame delivered to a subscriber sink: either a named event or a
keep-alive heartbeat. -/
inductive Frame where
  | event : Event → Frame
  | heartbeat : Frame
deriving DecidableEq, Repr

/-- Modelled from the spec: the subscriber fan-out (sse.BufferedServer,
whose source file src/page/sse.rs is not among the provided sources).  It
registers subscriber sinks, pushes events to every currently registered
sink in issue order, reports the subscriber count, and issues heartbeats.
Each sink is modelled by the list of frames delivered to it so far; the
bounded-buffer depth is carried but backpressure timing is not modelled. -/
structure BufferedServer where
  buffer_size : Nat
  clients : List (List Frame)
deriving DecidableEq, Repr

namespace BufferedServer

/-- Modelled from the spec: a fresh fan-out with the given buffer depth and
no registered subscribers. -/
def new (buffer_size : Nat) : BufferedServer :=
  { buffer_size := buffer_size, clients := [] }

/-- Modelled from the spec: the current number of registered sinks. -/
def connections (s : BufferedServer) : Nat :=
  s.clients.length

/-- Modelled from the spec: register a new output sink (with nothing
delivered to it yet). -/
def add_client (s : BufferedServer) : BufferedServer :=
  { buffer_size := s.buffer_size, clients := s.clients ++ [[]] }

/-- Modelled from the spec: deliver an event to every currently registered
sink, in issue order. -/
def send_to_clients (s : BufferedServer) (e : Event) : BufferedServer :=
  { buffer_size := s.buffer_size
    clients := s.clients.map (fun log => log ++ [Frame.event e]) }

/-- Modelled from the spec: deliver a keep-alive frame to every sink and
resolve to the number of sinks addressed. -/
def send_heartbeat (s : BufferedServer) : BufferedServer × Nat :=
  ({ buffer_size := s.buffer_size
     clients := s.clients.map (fun log => log ++ [Frame.heartbeat]) },
   s.clients.length)

end BufferedServer

/-- The content of a page: either Dynamic (live), with a title, a body and
a fan-out of update subscribers, or Static, with an optional content type
and raw byte contents (bytes as naturals below 256 is immaterial here, so
plain naturals stand for the u8 values). -/
inductive Content where
  | Dynamic (title : String) (body : String) (updates : BufferedServer)
  | Static (content_type : Option String) (raw_contents : List Nat)
deriving DecidableEq, Repr

/-- The maximum number of messages to buffer before blocking a send
(UPDATE_BUFFER_SIZE in the source). -/
def UPDATE_BUFFER_SIZE : Nat := 1

namespace Content

/-- Make a new empty (dynamic) page (Content.new in the source). -/
def new : Content :=
  Content.Dynamic "" "" (BufferedServer.new UPDATE_BUFFER_SIZE)

/-- Test if this page is empty: dynamic, with an empty title, empty body,
and no subscribers (Content.is_empty in the source). -/
def is_empty : Content → Bool
  | Content.Dynamic title body updates =>
      title == "" && body == "" && (updates.connections == 0)
  | Content.Static _ _ => false

/-- Add a client to the dynamic content of a page (Content.update_stream in
the source).  The hyper Body channel handed back to the new client is
modelled by the index of its sink in the fan-out; the second component of
the result is that handle, or none when the page is static.  The two
priming events are built from the current title and body, the client is
registered, and then both events are sent to all clients. -/
def update_stream : Content → Content × Option Nat
  | Content.Dynamic title body updates =>
      let stream_body := updates.connections
      let title_event :=
        if title ≠ "" then Event.mk "title" title
        else Event.mk "clear-title" "."
      let body_event :=
        if body ≠ "" then Event.mk "body" body
        else Event.mk "clear-body" "."
      let updates := updates.add_client
      let updates := updates.send_to_clients title_event
      let updates := updates.send_to_clients body_event
      (Content.Dynamic title body updates, some stream_body)
  | Content.Static content_type raw_contents =>
      (Content.Static content_type raw_contents, none)

/-- Send an empty heartbeat message to all clients of a page, if it is
dynamic, returning the current number of clients; no effect and none when
static (Content.send_heartbeat in the source). -/
def send_heartbeat : Content → Content × Option Nat
  | Content.Dynamic title body updates =>
      let r := updates.send_heartbeat
      (Content.Dynamic title body r.1, some r.2)
  | Content.Static content_type raw_contents =>
      (Content.Static content_type raw_contents, none)

/-- Tell all clients to refresh the contents of a page, if it is dynamic;
no effect when static (Content.refresh in the source). -/
def refresh : Content → Content
  | Content.Dynamic title body updates =>
      Content.Dynamic title body
        (updates.send_to_clients (Event.mk "refresh" "."))
  | Content.Static content_type raw_contents =>
      Content.Static content_type raw_contents

/-- Set the contents of the page to a static byte payload
(Content.set_static in the source).  The source swaps the new Static value
into self and then calls refresh on the displaced old value; the result
pair is (the new state of self, the displaced old state after its refresh),
the second component recording what the orphaned subscribers observed. -/
def set_static (c : Content) (content_type : Option String)
    (raw_contents : List Nat) : Content × Content :=
  let page := Content.Static content_type raw_contents
  (page, c.refresh)

/-- Get the content type of a page, or none if none has been set
(Content.content_type in the source). -/
def content_type : Content → Option String
  | Content.Dynamic _ _ _ => none
  | Content.Static content_type _ => content_type

/-- The body of the retry loop of Content.set_title in the source, with the
loop expressed through a fuel bound: none means the iteration bound was
exhausted.  The Dynamic arm diffs the new title against the stored one,
stores and broadcasts on a change, and exits the loop; the Static arm
replaces self with Content.new and loops again. -/
def set_title_go : Nat → Content → String → Option Content
  | 0, _, _ => none
  | fuel + 1, c, new_title =>
      match c with
      | Content.Dynamic title body updates =>
          if new_title ≠ title then
            let title := new_title
            let event :=
              if title ≠ "" then Event.mk "title" new_title
              else Event.mk "clear-title" "."
            some (Content.Dynamic title body (updates.send_to_clients event))
          else
            some (Content.Dynamic title body updates)
      | Content.Static _ _ =>
          set_title_go fuel Content.new new_title

/-- Tell all clients to change the title, if necessary, converting a static
page into a dynamic one (Content.set_title in the source).  Two loop
iterations always suffice (proved below), so the fuel default is never
taken. -/
def set_title (c : Content) (new_title : String) : Content :=
  (set_title_go 2 c new_title).getD c

/-- The body of the retry loop of Content.set_body in the source, with the
loop expressed through a fuel bound, symmetric to set_title_go. -/
def set_body_go : Nat → Content → String → Option Content
  | 0, _, _ => none
  | fuel + 1, c, new_body =>
      match c with
      | Content.Dynamic title body updates =>
          if new_body ≠ body then
            let body := new_body
            let event :=
              if body ≠ "" then Event.mk "body" new_body
              else Event.mk "clear-body" "."
            some (Content.Dynamic title body (updates.send_to_clients event))
          else
            some (Content.Dynamic title body updates)
      | Content.Static _ _ =>
          set_body_go fuel Content.new new_body

/-- Tell all clients to change the body, if necessary, converting a static
page into a dynamic one (Content.set_body in the source). -/
def set_body (c : Content) (new_body : String) : Content :=
  (set_body_go 2 c new_body).getD c

end Content

/-- The event encoder for the title field (spec section 4.2): emitted when
a title mutation or a subscription needs a title event. -/
def titleEvent (v : String) : Event :=
  if v ≠ "" then Event.mk "title" v else Event.mk "clear-title" "."

/-- The event encoder for the body field (spec section 4.2). -/
def bodyEvent (v : String) : Event :=
  if v ≠ "" then Event.mk "body" v else Event.mk "clear-body" "."

/-- The fixed refresh notification event (spec section 4.2). -/
def refreshEvent : Event :=
  Event.mk "refresh" "."

/-! Helper lemmas shared by the claim theorems. -/

/-- On a Dynamic page, set_title diffs against the stored title: no change
when equal, otherwise it stores the new title and broadcasts its event. -/
lemma set_title_dynamic_eq (t b v : String) (u : BufferedServer) :
    Content.set_title (Content.Dynamic t b u) v =
      if v = t then Content.Dynamic t b u
      else Content.Dynamic v b (u.send_to_clients (titleEvent v)) := by
  by_cases h : v = t <;>
    simp [Content.set_title, Content.set_title_go, titleEvent, h]

/-- On a Dynamic page, set_body diffs against the stored body. -/
lemma set_body_dynamic_eq (t b v : String) (u : BufferedServer) :
    Content.set_body (Content.Dynamic t b u) v =
      if v = b then Content.Dynamic t b u
      else Content.Dynamic t v (u.send_to_clients (bodyEvent v)) := by
  by_cases h : v = b <;>
    simp [Content.set_body, Content.set_body_go, bodyEvent, h]

/-- On a Static page, set_title replaces the state with a fresh Dynamic
page and then applies the title there; the fresh fan-out has no clients, so
the broadcast reaches nobody and the fan-out stays the fresh one. -/
lemma set_title_static_eq (mt : Option String) (bs : List Nat) (v : String) :
    Content.set_title (Content.Static mt bs) v =
      Content.Dynamic v "" (BufferedServer.new UPDATE_BUFFER_SIZE) := by
  by_cases h : v = "" <;>
    simp [Content.set_title, Content.set_title_go, Content.new, titleEvent, h,
      BufferedServer.send_to_clients, BufferedServer.new]

/-- On a Static page, set_body replaces the state with a fresh Dynamic page
and then applies the body there. -/
lemma set_body_static_eq (mt : Option String) (bs : List Nat) (v : String) :
    Content.set_body (Content.Static mt bs) v =
      Content.Dynamic "" v (BufferedServer.new UPDATE_BUFFER_SIZE) := by
  by_cases h : v = "" <;>
    simp [Content.set_body, Content.set_body_go, Content.new, bodyEvent, h,
      BufferedServer.send_to_clients, BufferedServer.new]

/-- C9: set_title and set_body terminate for every starting state and every
argument: two iterations of the retry loop always suffice (the Static arm
replaces the state with a fresh Dynamic one, and the Dynamic arm always
exits), and on an already-Dynamic page one iteration suffices. -/
theorem set_title_set_body_terminate :
    (∀ (c : Content) (v : String),
      (Content.set_title_go 2 c v).isSome = true) ∧
    (∀ (c : Content) (v : String),
      (Content.set_body_go 2 c v).isSome = true) ∧
    (∀ (t b v : String) (u : BufferedServer),
      (Content.set_title_go 1 (Content.Dynamic t b u) v).isSome = true) ∧
    (∀ (t b v : String) (u : BufferedServer),
      (Content.set_body_go 1 (Content.Dynamic t b u) v).isSome = true) := by
  refine ⟨fun c v => ?_, fun c v => ?_, fun t b v u => ?_, fun t b v u => ?_⟩ <;>
    [cases c; cases c; skip; skip] <;>
    simp [Content.set_title_go, Content.set_body_go, Content.new] <;>
    split <;> simp

/-- C1: on a Live (Dynamic) page, set_title and set_body are
diff-and-notify: when the new value equals the stored one the state is
unchanged and nothing is broadcast; when it differs the field is stored and
exactly one event (appended once to every subscriber log) is broadcast,
a set event for a non-empty value and a clear event for the empty string;
a second call with the same value is a no-op. -/
theorem set_title_set_body_diff_and_notify :
    ∀ (t b v : String) (u : BufferedServer),
      Content.set_title (Content.Dynamic t b u) v =
        (if v = t then Content.Dynamic t b u
         else Content.Dynamic v b (u.send_to_clients (titleEvent v))) ∧
      Content.set_body (Content.Dynamic t b u) v =
        (if v = b then Content.Dynamic t b u
         else Content.Dynamic t v (u.send_to_clients (bodyEvent v))) ∧
      (u.send_to_clients (titleEvent v)).clients
        = u.clients.map (fun log => log ++ [Frame.event (titleEvent v)]) ∧
      (u.send_to_clients (bodyEvent v)).clients
        = u.clients.map (fun log => log ++ [Frame.event (bodyEvent v)]) ∧
      (titleEvent v).eventType = (if v = "" then "clear-title" else "title") ∧
      (bodyEvent v).eventType = (if v = "" then "clear-body" else "body") ∧
      Content.set_title (Content.set_title (Content.Dynamic t b u) v) v
        = Content.set_title (Content.Dynamic t b u) v ∧
      Content.set_body (Content.set_body (Content.Dynamic t b u) v) v
        = Content.set_body (Content.Dynamic t b u) v := by
  intro t b v u
  refine ⟨set_title_dynamic_eq t b v u, set_body_dynamic_eq t b v u,
    rfl, rfl, ?_, ?_, ?_, ?_⟩
  · by_cases h : v = "" <;> simp [titleEvent, h]
  · by_cases h : v = "" <;> simp [bodyEvent, h]
  · by_cases h : v = t <;>
      simp [set_title_dynamic_eq, h]
  · by_cases h : v = b <;>
      simp [set_body_dynamic_eq, h]

/-- C2: on a Live (Dynamic) page with title T and body B, update_stream
registers a new subscriber sink, then sends a title priming event followed
by a body priming event to all current subscribers (the new one included),
in that order and before anything later, and returns the new stream handle.
The new sink's log is exactly the two priming events in order. -/
theorem update_stream_primes_subscribers :
    ∀ (T B : String) (u : BufferedServer),
      Content.update_stream (Content.Dynamic T B u) =
        (Content.Dynamic T B
          ((u.add_client.send_to_clients (titleEvent T)).send_to_clients
            (bodyEvent B)),
         some u.clients.length) ∧
      ((u.add_client.send_to_clients (titleEvent T)).send_to_clients
          (bodyEvent B)).clients
        = (u.clients ++ [[]]).map
            (fun log =>
              log ++ [Frame.event (titleEvent T), Frame.event (bodyEvent B)]) ∧
      ((u.add_client.send_to_clients (titleEvent T)).send_to_clients
          (bodyEvent B)).clients.getLast?
        = some [Frame.event (titleEvent T), Frame.event (bodyEvent B)] := by
  intro T B u
  refine ⟨rfl, ?_, ?_⟩
  · simp [BufferedServer.add_client, BufferedServer.send_to_clients,
      List.map_map, Function.comp]
  · simp [BufferedServer.add_client, BufferedServer.send_to_clients,
      List.map_map, Function.comp, List.map_append, List.getLast?_concat]

/-- C3: set_static always succeeds, unconditionally replaces the state with
the given Static value, and applies refresh to the displaced old state: a
displaced Dynamic state has a refresh event broadcast to every one of its
subscribers, while a displaced Static state broadcasts nothing. -/
theorem set_static_unconditional_refresh :
    ∀ (c : Content) (mt : Option String) (bs : List Nat),
      (Content.set_static c mt bs).1 = Content.Static mt bs ∧
      (Content.set_static c mt bs).2 = c.refresh ∧
      (∀ (t b : String) (u : BufferedServer),
        Content.refresh (Content.Dynamic t b u)
          = Content.Dynamic t b (u.send_to_clients refreshEvent) ∧
        (u.send_to_clients refreshEvent).clients
          = u.clients.map (fun log => log ++ [Frame.event refreshEvent])) ∧
      (∀ (mt2 : Option String) (bs2 : List Nat),
        Content.refresh (Content.Static mt2 bs2) = Content.Static mt2 bs2) := by
  intro c mt bs
  exact ⟨rfl, rfl, fun t b u => ⟨rfl, rfl⟩, fun mt2 bs2 => rfl⟩

/-- C4: round-trip through Static: set_static followed by setting the title
to the string x leaves the page Dynamic with a brand-new fan-out having
zero subscribers, title x, empty body, and no content type; the fresh
fan-out has no clients, so the conversion delivers no reload event to
anyone. -/
theorem set_static_then_set_title_round_trip :
    ∀ (c : Content) (mt : Option String) (bs : List Nat),
      Content.set_title (Content.set_static c mt bs).1 "x"
        = Content.Dynamic "x" "" (BufferedServer.new UPDATE_BUFFER_SIZE) ∧
      (BufferedServer.new UPDATE_BUFFER_SIZE).connections = 0 ∧
      (BufferedServer.new UPDATE_BUFFER_SIZE).clients = [] ∧
      Content.content_type
          (Content.set_title (Content.set_static c mt bs).1 "x") = none := by
  intro c mt bs
  refine ⟨set_title_static_eq mt bs "x", rfl, rfl, ?_⟩
  rw [Content.set_static, set_title_static_eq]
  rfl

/-- C5: on a Static page, update_stream and send_heartbeat both return the
not-applicable answer none and leave the state unchanged with no events
emitted; on a Dynamic page, send_heartbeat pushes a keep-alive frame to
every subscriber and returns the subscriber count at dispatch. -/
theorem static_not_applicable_heartbeat_count :
    ∀ (mt : Option String) (bs : List Nat) (t b : String)
      (u : BufferedServer),
      Content.update_stream (Content.Static mt bs)
        = (Content.Static mt bs, none) ∧
      Content.send_heartbeat (Content.Static mt bs)
        = (Content.Static mt bs, none) ∧
      Content.send_heartbeat (Content.Dynamic t b u)
        = (Content.Dynamic t b
            { buffer_size := u.buffer_size
              clients := u.clients.map (fun log => log ++ [Frame.heartbeat]) },
           some u.connections) := by
  intro mt bs t b u
  exact ⟨rfl, rfl, rfl⟩

/-- C6: event encoding policy: for each field, an empty current value is
encoded as a clear event whose payload is the single-character placeholder,
a non-empty value as a set event carrying the value verbatim; the refresh
notification is the fixed refresh event with the placeholder payload; every
emitted event has a non-empty payload.  The last clauses tie the encoders
to the events the operations actually broadcast. -/
theorem event_encoding_policy :
    ∀ (t b v : String) (u : BufferedServer),
      titleEvent v
        = (if v = "" then Event.mk "clear-title" "." else Event.mk "title" v) ∧
      bodyEvent v
        = (if v = "" then Event.mk "clear-body" "." else Event.mk "body" v) ∧
      (titleEvent v).data.isEmpty = false ∧
      (bodyEvent v).data.isEmpty = false ∧
      String.length (titleEvent "").data = 1 ∧
      String.length (bodyEvent "").data = 1 ∧
      refreshEvent = Event.mk "refresh" "." ∧
      refreshEvent.data.isEmpty = false ∧
      Content.set_title (Content.Dynamic t b u) v =
        (if v = t then Content.Dynamic t b u
         else Content.Dynamic v b (u.send_to_clients (titleEvent v))) ∧
      Content.set_body (Content.Dynamic t b u) v =
        (if v = b then Content.Dynamic t b u
         else Content.Dynamic t v (u.send_to_clients (bodyEvent v))) ∧
      Content.refresh (Content.Dynamic t b u)
        = Content.Dynamic t b (u.send_to_clients refreshEvent) := by
  intro t b v u
  refine ⟨?_, ?_, ?_, ?_, rfl, rfl, rfl, rfl,
    set_title_dynamic_eq t b v u, set_body_dynamic_eq t b v u, rfl⟩ <;>
    by_cases h : v = "" <;>
    simp [titleEvent, bodyEvent, h, String.isEmpty, String.endPos_eq_zero]

/-- C7: is_empty of a fresh page is true, and in general is_empty is true
exactly when the page is Dynamic with empty title, empty body, and a
fan-out reporting zero subscribers; it is always false on a Static page.
The function is a pure query and mutates nothing. -/
theorem is_empty_characterisation :
    Content.is_empty Content.new = true ∧
    (∀ (t b : String) (u : BufferedServer),
      Content.is_empty (Content.Dynamic t b u)
        = (t == "" && b == "" && (u.connections == 0))) ∧
    (∀ (mt : Option String) (bs : List Nat),
      Content.is_empty (Content.Static mt bs) = false) := by
  exact ⟨rfl, fun t b u => rfl, fun mt bs => rfl⟩

/-- C8: content_type is a pure query returning none for every Dynamic page
(the fresh page included) and exactly the stored media type for a Static
page, in particular the value passed to the most recent set_static. -/
theorem content_type_query :
    Content.content_type Content.new = none ∧
    (∀ (t b : String) (u : BufferedServer),
      Content.content_type (Content.Dynamic t b u) = none) ∧
    (∀ (mt : Option String) (bs : List Nat),
      Content.content_type (Content.Static mt bs) = mt) ∧
    (∀ (c : Content) (mt : Option String) (bs : List Nat),
      Content.content_type (Content.set_static c mt bs).1 = mt) := by
  exact ⟨rfl, fun t b u => rfl, fun mt bs => rfl, fun c mt bs => rfl⟩

/-- C10: frame condition on Live mutation: on a page that is already
Dynamic, set_title leaves the stored body and the existing fan-out handle
in place (the fan-out is either untouched or the same one after a single
broadcast, never a fresh allocation, with buffer depth and subscriber set
size preserved), and symmetrically set_body leaves the title and fan-out
handle in place. -/
theorem live_mutation_frame_condition :
    ∀ (t b v : String) (u : BufferedServer),
      (∃ u2 : BufferedServer,
        Content.set_title (Content.Dynamic t b u) v = Content.Dynamic v b u2 ∧
        (u2 = u ∨ u2 = u.send_to_clients (titleEvent v)) ∧
        u2.clients.length = u.clients.length ∧
        u2.buffer_size = u.buffer_size) ∧
      (∃ u2 : BufferedServer,
        Content.set_body (Content.Dynamic t b u) v = Content.Dynamic t v u2 ∧
        (u2 = u ∨ u2 = u.send_to_clients (bodyEvent v)) ∧
        u2.clients.length = u.clients.length ∧
        u2.buffer_size = u.buffer_size) := by
  intro t b v u
  constructor
  · by_cases h : v = t
    · exact ⟨u, by simp [set_title_dynamic_eq, h], Or.inl rfl, rfl, rfl⟩
    · exact ⟨u.send_to_clients (titleEvent v),
        by simp [set_title_dynamic_eq, h], Or.inr rfl,
        by simp [BufferedServer.send_to_clients], rfl⟩
  · by_cases h : v = b
    · exact ⟨u, by simp [set_body_dynamic_eq, h], Or.inl rfl, rfl, rfl⟩
    · exact ⟨u.send_to_clients (bodyEvent v),
        by simp [set_body_dynamic_eq, h], Or.inr rfl,
        by simp [BufferedServer.send_to_clients], rfl⟩
